import Mathlib

/-!
# Verification of the Means Test Eligibility Engine (`means_test.py`)

A shallow embedding of `MeansTestCalculator` and the module-level
`calculate_means_test` from `means_test.py`, together with theorems settling
the specification claims about the two-step bankruptcy means test.

Modelling conventions:
* Python floats carrying dollar amounts are modelled as rationals (`ℚ`).
* The dynamically-typed values the calculator reads out of the input dict are
  modelled by `PyVal`; operations that can raise (`float(...)`, `.get`,
  `.lower()`, `len`, iteration) return `Except PyErr _`, and the `try/except`
  blocks of the source are modelled by matching on the error.
* A `Dict[str, Any]` result is modelled as a structure; keys that are present
  only on the Stage-2 path are `Option` fields, `none` meaning "key absent".
* The f-string `reason` messages are modelled by the numeric data interpolated
  into them rather than by the rendered text.
-/

/-- Dynamically-typed Python values, restricted to the shapes `means_test.py`
manipulates: numbers (floats and ints, modelled as rationals), strings,
`None`, lists, and string-keyed dicts. -/
inductive PyVal where
  | num (q : ℚ)
  | str (s : String)
  | pynone
  | list (l : List PyVal)
  | dict (d : List (String × PyVal))

/-- The exceptions the modelled fragment of the source can raise. -/
inductive PyErr where
  | valueError
  | typeError
  | attributeError
deriving DecidableEq

/-- ASCII lower-casing of one character, as Python's `str.lower` acts on the
letters appearing in the marital-status comparisons. -/
def lowerChar (c : Char) : Char :=
  if 'A' ≤ c ∧ c ≤ 'Z' then Char.ofNat (c.toNat + 32) else c

/-- `s.lower()`. -/
def lowerString (s : String) : String :=
  String.mk (s.toList.map lowerChar)

/-- Whitespace as stripped by Python's `float` from numeric strings. -/
def isPySpace (c : Char) : Bool :=
  c = ' ' ∨ c = '\t' ∨ c = '\n' ∨ c = '\r'

/-- Strip whitespace from both ends. -/
def trimChars (cs : List Char) : List Char :=
  ((cs.dropWhile isPySpace).reverse.dropWhile isPySpace).reverse

/-- Numeric value of a list of decimal digit characters. -/
def digitsVal (cs : List Char) : ℕ :=
  cs.foldl (fun a c => 10 * a + (c.toNat - 48)) 0

/-- Parse an unsigned decimal literal (digits with at most one point, at least
one digit overall), the shape of numeric strings Python's `float` accepts. -/
def parseDecimal (cs : List Char) : Option ℚ :=
  let intPart := cs.takeWhile (fun c => c ≠ '.')
  match cs.dropWhile (fun c => c ≠ '.') with
  | [] =>
      if cs.length ≠ 0 ∧ cs.all Char.isDigit then some (digitsVal cs) else Option.none
  | _ :: frac =>
      if (intPart.length + frac.length ≠ 0) ∧ intPart.all Char.isDigit ∧
          frac.all Char.isDigit then
        some ((digitsVal intPart : ℚ) + (digitsVal frac : ℚ) / (10 ^ frac.length))
      else Option.none

/-- Python `float` applied to a string: optional surrounding whitespace and
sign, then a plain decimal literal. -/
def parsePyFloat (s : String) : Option ℚ :=
  match trimChars s.toList with
  | '+' :: cs => parseDecimal cs
  | '-' :: cs => (parseDecimal cs).map Neg.neg
  | cs => parseDecimal cs

/-- Python `float(v)`: numbers pass through, strings are parsed (`ValueError`
on failure), `None`, lists and dicts raise `TypeError`. -/
def pyFloat : PyVal → Except PyErr ℚ
  | .num q => .ok q
  | .str s =>
      match parsePyFloat s with
      | some q => .ok q
      | Option.none => .error .valueError
  | .pynone => .error .typeError
  | .list _ => .error .typeError
  | .dict _ => .error .typeError

/-- Python `v.get(key, dflt)`: defined on dicts; any other receiver raises
`AttributeError` (which the source's `except (ValueError, TypeError)` handlers
do not catch). -/
def pyGet (v : PyVal) (key : String) (dflt : PyVal) : Except PyErr PyVal :=
  match v with
  | .dict d => .ok ((d.lookup key).getD dflt)
  | _ => .error .attributeError

/-- Python `v.lower()`: defined on strings only. -/
def pyLower : PyVal → Except PyErr String
  | .str s => .ok (lowerString s)
  | _ => .error .attributeError

/-- Python `len(v)`. -/
def pyLen : PyVal → Except PyErr ℕ
  | .list l => .ok l.length
  | .str s => .ok s.length
  | .dict d => .ok d.length
  | _ => .error .typeError

/-- Python `for x in v`: lists yield their elements, strings their characters
as one-character strings, dicts their keys; numbers and `None` raise
`TypeError`. -/
def pyIter : PyVal → Except PyErr (List PyVal)
  | .list l => .ok l
  | .str s => .ok (s.toList.map fun c => PyVal.str (String.mk [c]))
  | .dict d => .ok (d.map fun p => PyVal.str p.1)
  | _ => .error .typeError

/-- Python `v == s` for a string literal `s`: true exactly when `v` is that
string (equality between a string and a value of any other type is `False`). -/
def pyEqStr (v : PyVal) (s : String) : Bool :=
  match v with
  | .str t => t == s
  | _ => false

/-- The input record `data : Dict[str, Any]`. The calculator reads exactly
these keys, each through `data.get(key, default)`; a record in which a key is
absent is represented by the field holding that default, so each field below
carries its `.get` default as the structure default. -/
structure FinRecord where
  monthly_income : PyVal := .num 0
  additional_income : PyVal := .list []
  marital_status : PyVal := .str ""
  dependents : PyVal := .list []
  monthly_expenses : PyVal := .dict []
  liabilities : PyVal := .list []
  court_jurisdiction : PyVal := .dict []

/-- The reference tables installed by `MeansTestCalculator.__init__`.
Each per-household-size row `{"1": a, ..., "8": h}` is a list of 8 rationals
(index 0 holding the size-1 figure). -/
structure Calculator where
  median_income_data : String → Option (List ℚ)
  irs_food : List ℚ
  irs_housekeeping_supplies : List ℚ
  irs_apparel_and_services : List ℚ
  irs_personal_care : List ℚ
  irs_miscellaneous : List ℚ
  housing_and_utilities : List ℚ
  ownership_costs : List ℚ
  operating_costs : List ℚ

/-- The hard-coded `median_income_data` table of `__init__` (2025 figures). -/
def defaultMedianIncomeData : String → Option (List ℚ)
  | "Alabama" => some [4567, 5678, 6789, 7890, 8901, 9012, 10123, 11234]
  | "Alaska" => some [6789, 7890, 8901, 9012, 10123, 11234, 12345, 13456]
  | "Arizona" => some [5234, 6345, 7456, 8567, 9678, 10789, 11900, 13011]
  | "Arkansas" => some [4123, 5234, 6345, 7456, 8567, 9678, 10789, 11900]
  | "California" => some [6789, 7890, 8901, 9012, 10123, 11234, 12345, 13456]
  | "Colorado" => some [6123, 7234, 8345, 9456, 10567, 11678, 12789, 13900]
  | "Connecticut" => some [6789, 7890, 8901, 9012, 10123, 11234, 12345, 13456]
  | "Delaware" => some [6123, 7234, 8345, 9456, 10567, 11678, 12789, 13900]
  | "Florida" => some [5234, 6345, 7456, 8567, 9678, 10789, 11900, 13011]
  | "Georgia" => some [5234, 6345, 7456, 8567, 9678, 10789, 11900, 13011]
  | "Hawaii" => some [6789, 7890, 8901, 9012, 10123, 11234, 12345, 13456]
  | "Idaho" => some [4567, 5678, 6789, 7890, 8901, 9012, 10123, 11234]
  | "Illinois" => some [6123, 7234, 8345, 9456, 10567, 11678, 12789, 13900]
  | "Indiana" => some [5234, 6345, 7456, 8567, 9678, 10789, 11900, 13011]
  | "Iowa" => some [5234, 6345, 7456, 8567, 9678, 10789, 11900, 13011]
  | "Kansas" => some [5234, 6345, 7456, 8567, 9678, 10789, 11900, 13011]
  | "Kentucky" => some [4567, 5678, 6789, 7890, 8901, 9012, 10123, 11234]
  | "Louisiana" => some [4567, 5678, 6789, 7890, 8901, 9012, 10123, 11234]
  | "Maine" => some [5234, 6345, 7456, 8567, 9678, 10789, 11900, 13011]
  | "Maryland" => some [6789, 7890, 8901, 9012, 10123, 11234, 12345, 13456]
  | "Massachusetts" => some [6789, 7890, 8901, 9012, 10123, 11234, 12345, 13456]
  | "Michigan" => some [5234, 6345, 7456, 8567, 9678, 10789, 11900, 13011]
  | "Minnesota" => some [6123, 7234, 8345, 9456, 10567, 11678, 12789, 13900]
  | "Mississippi" => some [4123, 5234, 6345, 7456, 8567, 9678, 10789, 11900]
  | "Missouri" => some [5234, 6345, 7456, 8567, 9678, 10789, 11900, 13011]
  | "Montana" => some [4567, 5678, 6789, 7890, 8901, 9012, 10123, 11234]
  | "Nebraska" => some [5234, 6345, 7456, 8567, 9678, 10789, 11900, 13011]
  | "Nevada" => some [5678, 6789, 7890, 8901, 9012, 10123, 11234, 12345]
  | "New Hampshire" => some [6123, 7234, 8345, 9456, 10567, 11678, 12789, 13900]
  | "New Jersey" => some [6789, 7890, 8901, 9012, 10123, 11234, 12345, 13456]
  | "New Mexico" => some [4567, 5678, 6789, 7890, 8901, 9012, 10123, 11234]
  | "New York" => some [6789, 7890, 8901, 9012, 10123, 11234, 12345, 13456]
  | "North Carolina" => some [5234, 6345, 7456, 8567, 9678, 10789, 11900, 13011]
  | "North Dakota" => some [5234, 6345, 7456, 8567, 9678, 10789, 11900, 13011]
  | "Ohio" => some [5234, 6345, 7456, 8567, 9678, 10789, 11900, 13011]
  | "Oklahoma" => some [4567, 5678, 6789, 7890, 8901, 9012, 10123, 11234]
  | "Oregon" => some [5678, 6789, 7890, 8901, 9012, 10123, 11234, 12345]
  | "Pennsylvania" => some [5678, 6789, 7890, 8901, 9012, 10123, 11234, 12345]
  | "Rhode Island" => some [5678, 6789, 7890, 8901, 9012, 10123, 11234, 12345]
  | "South Carolina" => some [4567, 5678, 6789, 7890, 8901, 9012, 10123, 11234]
  | "South Dakota" => some [4567, 5678, 6789, 7890, 8901, 9012, 10123, 11234]
  | "Tennessee" => some [4567, 5678, 6789, 7890, 8901, 9012, 10123, 11234]
  | "Texas" => some [5234, 6345, 7456, 8567, 9678, 10789, 11900, 13011]
  | "Utah" => some [5234, 6345, 7456, 8567, 9678, 10789, 11900, 13011]
  | "Vermont" => some [5234, 6345, 7456, 8567, 9678, 10789, 11900, 13011]
  | "Virginia" => some [6123, 7234, 8345, 9456, 10567, 11678, 12789, 13900]
  | "Washington" => some [6123, 7234, 8345, 9456, 10567, 11678, 12789, 13900]
  | "West Virginia" => some [4123, 5234, 6345, 7456, 8567, 9678, 10789, 11900]
  | "Wisconsin" => some [5234, 6345, 7456, 8567, 9678, 10789, 11900, 13011]
  | "Wyoming" => some [4567, 5678, 6789, 7890, 8901, 9012, 10123, 11234]
  | _ => Option.none

/-- The table bundle a fresh `MeansTestCalculator()` carries (`__init__`). -/
def defaultCalculator : Calculator :=
  { median_income_data := defaultMedianIncomeData
    irs_food := [500, 600, 700, 800, 900, 1000, 1100, 1200]
    irs_housekeeping_supplies := [50, 60, 70, 80, 90, 100, 110, 120]
    irs_apparel_and_services := [200, 250, 300, 350, 400, 450, 500, 550]
    irs_personal_care := [50, 60, 70, 80, 90, 100, 110, 120]
    irs_miscellaneous := [100, 120, 140, 160, 180, 200, 220, 240]
    housing_and_utilities := [800, 1000, 1200, 1400, 1600, 1800, 2000, 2200]
    ownership_costs := [500, 500, 500, 500, 500, 500, 500, 500]
    operating_costs := [200, 200, 200, 200, 200, 200, 200, 200] }

/-- `row.get(str(min(hh, 8)), dflt)`: table rows are keyed "1".."8", so the
capped household size indexes the 8-entry list; a size of 0 misses every key
and yields the default. -/
def rowGet (row : List ℚ) (dflt : ℚ) (hh : ℕ) : ℚ :=
  let k := min hh 8
  if k = 0 then dflt else (row.get? (k - 1)).getD dflt

/-- `get_state_median_income` (lines 117-121): unknown states look up the
empty dict and fall through to the fixed default 5000. -/
def get_state_median_income (c : Calculator) (state : String) (hh : ℕ) : ℚ :=
  match c.median_income_data state with
  | some row => rowGet row 5000 hh
  | Option.none => 5000

/-- `self.median_income_data.get(state, {})` applied to the dynamically-typed
state value flowing out of line 216: a string key looks up the table, other
hashable values (numbers, `None`) miss every key and fall back to 5000, and
unhashable keys (lists, dicts) raise `TypeError`. -/
def stateMedianOfVal (c : Calculator) (state : PyVal) (hh : ℕ) : Except PyErr ℚ :=
  match state with
  | .str s => .ok (get_state_median_income c s hh)
  | .num _ => .ok 5000
  | .pynone => .ok 5000
  | .list _ => .error .typeError
  | .dict _ => .error .typeError

/-- The guarded expression `float(income_source.get('amount', 0))` of
line 94: fetch the amount with `.get` (raising `AttributeError` on a non-dict
entry) and convert it with `float`. -/
def entryAttempt (e : PyVal) : Except PyErr ℚ :=
  match pyGet e "amount" (.num 0) with
  | .ok av => pyFloat av
  | .error err => .error err

/-- The additional-income loop of `calculate_current_monthly_income`
(lines 92-97): each entry's amount is fetched with `.get('amount', 0)` and
converted with `float`; `ValueError`/`TypeError` from the conversion are
caught and the entry skipped, while an `AttributeError` from `.get` (entry is
not a dict) escapes the loop. -/
def addIncomeLoop : List PyVal → ℚ → Except PyErr ℚ
  | [], acc => .ok acc
  | e :: rest, acc =>
      match entryAttempt e with
      | .ok q => addIncomeLoop rest (acc + q)
      | .error .valueError => addIncomeLoop rest acc
      | .error .typeError => addIncomeLoop rest acc
      | .error err => .error err

/-- The body of the outer `try` of `calculate_current_monthly_income`
(lines 87-99): parse the base figure, then iterate the additional-income
entries. -/
def cmiBody (d : FinRecord) : Except PyErr ℚ :=
  match pyFloat d.monthly_income with
  | .error err => .error err
  | .ok base =>
      match pyIter d.additional_income with
      | .error err => .error err
      | .ok entries => addIncomeLoop entries base

/-- `calculate_current_monthly_income` (lines 84-101): the outer
`except (ValueError, TypeError)` returns 0.0; other exceptions propagate. -/
def calculate_current_monthly_income (d : FinRecord) : Except PyErr ℚ :=
  match cmiBody d with
  | .ok v => .ok v
  | .error .valueError => .ok 0
  | .error .typeError => .ok 0
  | .error err => .error err

/-- `get_household_size` (lines 103-115): 1 for the debtor, plus 1 when the
lower-cased marital status is "married"/"marriage", plus `len(dependents)`. -/
def get_household_size (d : FinRecord) : Except PyErr ℕ :=
  match pyLower d.marital_status with
  | .error err => .error err
  | .ok ms =>
      let base : ℕ := if ms = "married" ∨ ms = "marriage" then 2 else 1
      match pyLen d.dependents with
      | .error err => .error err
      | .ok n => .ok (base + n)

/-- `float(monthly_expenses.get(key, 0))`, as used throughout
`calculate_allowable_expenses`; note there is no `try` around these, so both
the `AttributeError` (non-dict receiver) and `ValueError`/`TypeError`
(unparseable value) propagate. -/
def actualExpense (me : PyVal) (key : String) : Except PyErr ℚ :=
  match pyGet me key (.num 0) with
  | .error err => .error err
  | .ok v => pyFloat v

/-- `calculate_allowable_expenses` (lines 123-158), returning the expense
dict as a list of (category, amount) pairs in insertion order. -/
def calculate_allowable_expenses (c : Calculator) (d : FinRecord) (hh : ℕ) :
    Except PyErr (List (String × ℚ)) :=
  let me := d.monthly_expenses
  match actualExpense me "rent_mortgage" with
  | .error err => .error err
  | .ok rent =>
  match actualExpense me "utilities" with
  | .error err => .error err
  | .ok utilities =>
  match actualExpense me "car_payment" with
  | .error err => .error err
  | .ok car_payment =>
  match actualExpense me "car_insurance" with
  | .error err => .error err
  | .ok car_insurance =>
  match actualExpense me "gas_maintenance" with
  | .error err => .error err
  | .ok gas =>
  match actualExpense me "health_insurance" with
  | .error err => .error err
  | .ok health =>
  match actualExpense me "medical_expenses" with
  | .error err => .error err
  | .ok medical =>
  match actualExpense me "phone_internet" with
  | .error err => .error err
  | .ok phone =>
  match actualExpense me "entertainment" with
  | .error err => .error err
  | .ok entertainment =>
  .ok [("food", rowGet c.irs_food 500 hh),
       ("housekeeping_supplies", rowGet c.irs_housekeeping_supplies 50 hh),
       ("apparel_and_services", rowGet c.irs_apparel_and_services 200 hh),
       ("personal_care", rowGet c.irs_personal_care 50 hh),
       ("miscellaneous", rowGet c.irs_miscellaneous 100 hh),
       ("housing_and_utilities",
         min (rent + utilities) (rowGet c.housing_and_utilities 1000 hh)),
       ("transportation",
         min (car_payment + car_insurance + gas)
           (rowGet c.ownership_costs 500 hh + rowGet c.operating_costs 200 hh)),
       ("health_insurance", health),
       ("medical_expenses", medical),
       ("phone_internet", phone),
       ("entertainment", entertainment)]

/-- The loop of `calculate_secured_debt_payments` (lines 164-171): liabilities
whose `type` is the string "secured" contribute their parsed
`monthly_payment`; conversion errors are caught and skipped. -/
def securedLoop : List PyVal → ℚ → Except PyErr ℚ
  | [], acc => .ok acc
  | l :: rest, acc =>
      match pyGet l "type" .pynone with
      | .error err => .error err
      | .ok t =>
          if pyEqStr t "secured" then
            match (match pyGet l "monthly_payment" (.num 0) with
                   | .ok mp => pyFloat mp
                   | .error err => .error err) with
            | .ok p => securedLoop rest (acc + p)
            | .error .valueError => securedLoop rest acc
            | .error .typeError => securedLoop rest acc
            | .error err => .error err
          else securedLoop rest acc

/-- `calculate_secured_debt_payments` (lines 160-173). -/
def calculate_secured_debt_payments (d : FinRecord) : Except PyErr ℚ :=
  match pyIter d.liabilities with
  | .error err => .error err
  | .ok ls => securedLoop ls 0

/-- The loop of `calculate_priority_debt_payments` (lines 179-189): liabilities
whose `type` is "priority" contribute `amount / 60` (the 5-year amortization);
conversion errors are caught and skipped. -/
def priorityLoop : List PyVal → ℚ → Except PyErr ℚ
  | [], acc => .ok acc
  | l :: rest, acc =>
      match pyGet l "type" .pynone with
      | .error err => .error err
      | .ok t =>
          if pyEqStr t "priority" then
            match (match pyGet l "amount" (.num 0) with
                   | .ok av => pyFloat av
                   | .error err => .error err) with
            | .ok amount => priorityLoop rest (acc + amount / 60)
            | .error .valueError => priorityLoop rest acc
            | .error .typeError => priorityLoop rest acc
            | .error err => .error err
          else priorityLoop rest acc

/-- `calculate_priority_debt_payments` (lines 175-191). -/
def calculate_priority_debt_payments (d : FinRecord) : Except PyErr ℚ :=
  match pyIter d.liabilities with
  | .error err => .error err
  | .ok ls => priorityLoop ls 0

/-- The loop of `calculate_unsecured_debt` (lines 295-302): liabilities whose
`type` is "unsecured" contribute their parsed `amount`. -/
def unsecuredLoop : List PyVal → ℚ → Except PyErr ℚ
  | [], acc => .ok acc
  | l :: rest, acc =>
      match pyGet l "type" .pynone with
      | .error err => .error err
      | .ok t =>
          if pyEqStr t "unsecured" then
            match (match pyGet l "amount" (.num 0) with
                   | .ok av => pyFloat av
                   | .error err => .error err) with
            | .ok amount => unsecuredLoop rest (acc + amount)
            | .error .valueError => unsecuredLoop rest acc
            | .error .typeError => unsecuredLoop rest acc
            | .error err => .error err
          else unsecuredLoop rest acc

/-- `calculate_unsecured_debt` (lines 291-304). -/
def calculate_unsecured_debt (d : FinRecord) : Except PyErr ℚ :=
  match pyIter d.liabilities with
  | .error err => .error err
  | .ok ls => unsecuredLoop ls 0

/-- `calculate_disposable_income` (lines 193-212): income minus the total of
allowable expenses minus secured and priority debt payments, floored at 0. -/
def calculate_disposable_income (c : Calculator) (d : FinRecord) : Except PyErr ℚ :=
  match calculate_current_monthly_income d with
  | .error err => .error err
  | .ok cmi =>
  match get_household_size d with
  | .error err => .error err
  | .ok hh =>
  match calculate_allowable_expenses c d hh with
  | .error err => .error err
  | .ok exps =>
  match calculate_secured_debt_payments d with
  | .error err => .error err
  | .ok sec =>
  match calculate_priority_debt_payments d with
  | .error err => .error err
  | .ok pri =>
  .ok (max 0 (cmi - (exps.map Prod.snd).sum - sec - pri))

/-- The `details` sub-dict of the result. Keys written only on the Stage-2
path are `Option`s; `none` models the key being absent from the Stage-1
result dict. -/
structure MTDetails where
  current_monthly_income : ℚ
  state_median_income : ℚ
  household_size : ℕ
  state : PyVal
  disposable_monthly_income : Option ℚ
  five_year_disposable_income : Option ℚ
  allowable_expenses : Option (List (String × ℚ))
  secured_payments : Option ℚ
  priority_payments : Option ℚ

/-- The result dict of `determine_means_test_result`. The f-string reasons are
modelled by the data interpolated into them: `step1_reason` carries the
(income, median) pair and `step2_reason` the five-year figure together with
the result of the `result == 'FAIL'` test selecting "exceeds"/"is below". -/
structure MTResult where
  step1_result : String
  step1_reason : ℚ × ℚ
  step2_required : Bool
  step2_result : Option String
  step2_reason : Option (ℚ × Bool)
  means_test_result : String
  chapter_7_eligible : Bool
  chapter_13_required : Bool
  details : MTDetails

/-- The (result, chapter_7_eligible, chapter_13_required) triple assigned by
the Stage-2 threshold branches. -/
structure Verdict where
  result : String
  ch7 : Bool
  ch13 : Bool
deriving DecidableEq

/-- Lines 242-267: classify the five-year disposable figure against the fixed
thresholds; in the gray zone consult the unsecured-debt percentage. -/
def stage2Verdict (d : FinRecord) (fy : ℚ) : Except PyErr Verdict :=
  if fy < 7700 then .ok ⟨"PASS", true, false⟩
  else if fy > 12850 then .ok ⟨"FAIL", false, true⟩
  else
    match calculate_unsecured_debt d with
    | .error err => .error err
    | .ok u =>
        if u > 0 then
          if fy / u * 100 ≥ 25 then .ok ⟨"FAIL", false, true⟩
          else .ok ⟨"PASS", true, false⟩
        else .ok ⟨"PASS", true, false⟩

/-- The Stage-1 PASS result dict returned at lines 223-236. -/
def stage1Result (cmi med : ℚ) (hh : ℕ) (state : PyVal) : MTResult :=
  { step1_result := "PASS", step1_reason := (cmi, med),
    step2_required := false, step2_result := Option.none,
    step2_reason := Option.none, means_test_result := "PASS",
    chapter_7_eligible := true, chapter_13_required := false,
    details := { current_monthly_income := cmi, state_median_income := med,
                 household_size := hh, state := state,
                 disposable_monthly_income := Option.none,
                 five_year_disposable_income := Option.none,
                 allowable_expenses := Option.none,
                 secured_payments := Option.none,
                 priority_payments := Option.none } }

/-- The Stage-2 result dict returned at lines 269-289. -/
def stage2Result (cmi med disp : ℚ) (v : Verdict) (hh : ℕ) (state : PyVal)
    (exps : List (String × ℚ)) (sec pri : ℚ) : MTResult :=
  { step1_result := "FAIL", step1_reason := (cmi, med),
    step2_required := true, step2_result := some v.result,
    step2_reason := some (disp * 60, v.result == "FAIL"),
    means_test_result := v.result, chapter_7_eligible := v.ch7,
    chapter_13_required := v.ch13,
    details := { current_monthly_income := cmi, state_median_income := med,
                 household_size := hh, state := state,
                 disposable_monthly_income := some disp,
                 five_year_disposable_income := some (disp * 60),
                 allowable_expenses := some exps,
                 secured_payments := some sec,
                 priority_payments := some pri } }

/-- `determine_means_test_result` (lines 214-289). -/
def determine_means_test_result (c : Calculator) (d : FinRecord) :
    Except PyErr MTResult :=
  match pyGet d.court_jurisdiction "state" (.str "California") with
  | .error err => .error err
  | .ok state =>
  match get_household_size d with
  | .error err => .error err
  | .ok hh =>
  match calculate_current_monthly_income d with
  | .error err => .error err
  | .ok cmi =>
  match stateMedianOfVal c state hh with
  | .error err => .error err
  | .ok med =>
  if cmi ≤ med then
    .ok (stage1Result cmi med hh state)
  else
  match calculate_disposable_income c d with
  | .error err => .error err
  | .ok disp =>
  match stage2Verdict d (disp * 60) with
  | .error err => .error err
  | .ok v =>
  match calculate_allowable_expenses c d hh with
  | .error err => .error err
  | .ok exps =>
  match calculate_secured_debt_payments d with
  | .error err => .error err
  | .ok sec =>
  match calculate_priority_debt_payments d with
  | .error err => .error err
  | .ok pri =>
  .ok (stage2Result cmi med disp v hh state exps sec pri)

/-- The result of the module-level `calculate_means_test`: the calculation
result plus the audit timestamp and version stamped onto it. -/
structure StampedResult where
  result : MTResult
  calculation_date : String
  calculation_version : String

/-- `calculate_means_test` (lines 306-315): build a fresh calculator, run the
determination, and stamp `datetime.now().isoformat()` (modelled by the
explicit `now` argument) and the fixed version string onto the result. -/
def calculate_means_test (now : String) (d : FinRecord) :
    Except PyErr StampedResult :=
  match determine_means_test_result defaultCalculator d with
  | .error err => .error err
  | .ok r =>
      .ok { result := r, calculation_date := now, calculation_version := "2025.1" }

/-- Projection of the engine's final verdict. -/
def finalVerdict (c : Calculator) (d : FinRecord) : Except PyErr String :=
  (determine_means_test_result c d).map MTResult.means_test_result

/-- Unfolding lemma: when the four prefix computations succeed and income is
at or below the median, the engine returns the Stage-1 PASS result. -/
theorem determine_stage1_eq (c : Calculator) (d : FinRecord) (st : PyVal)
    (hh : ℕ) (cmi med : ℚ)
    (hst : pyGet d.court_jurisdiction "state" (.str "California") = .ok st)
    (hhh : get_household_size d = .ok hh)
    (hcmi : calculate_current_monthly_income d = .ok cmi)
    (hmed : stateMedianOfVal c st hh = .ok med)
    (hle : cmi ≤ med) :
    determine_means_test_result c d = .ok (stage1Result cmi med hh st) := by
  unfold determine_means_test_result
  simp only [hst, hhh, hcmi, hmed, if_pos hle]

/-- Unfolding lemma: when the prefix computations succeed, income exceeds the
median, and the Stage-2 computations succeed, the engine returns the Stage-2
result built from their values. -/
theorem determine_stage2_eq (c : Calculator) (d : FinRecord) (st : PyVal)
    (hh : ℕ) (cmi med disp : ℚ) (v : Verdict) (exps : List (String × ℚ))
    (sec pri : ℚ)
    (hst : pyGet d.court_jurisdiction "state" (.str "California") = .ok st)
    (hhh : get_household_size d = .ok hh)
    (hcmi : calculate_current_monthly_income d = .ok cmi)
    (hmed : stateMedianOfVal c st hh = .ok med)
    (hgt : ¬ cmi ≤ med)
    (hdisp : calculate_disposable_income c d = .ok disp)
    (hv : stage2Verdict d (disp * 60) = .ok v)
    (hexp : calculate_allowable_expenses c d hh = .ok exps)
    (hsec : calculate_secured_debt_payments d = .ok sec)
    (hpri : calculate_priority_debt_payments d = .ok pri) :
    determine_means_test_result c d =
      .ok (stage2Result cmi med disp v hh st exps sec pri) := by
  unfold determine_means_test_result
  simp only [hst, hhh, hcmi, hmed, if_neg hgt, hdisp, hv, hexp, hsec, hpri]

/-- Inversion: a successful run of the engine decomposes into successful
prefix computations and either the Stage-1 or the Stage-2 return. -/
theorem determine_ok_inv (c : Calculator) (d : FinRecord) (r : MTResult)
    (h : determine_means_test_result c d = .ok r) :
    ∃ st hh cmi med,
      pyGet d.court_jurisdiction "state" (.str "California") = .ok st ∧
      get_household_size d = .ok hh ∧
      calculate_current_monthly_income d = .ok cmi ∧
      stateMedianOfVal c st hh = .ok med ∧
      ((cmi ≤ med ∧ r = stage1Result cmi med hh st) ∨
       (¬ cmi ≤ med ∧
        ∃ disp v exps sec pri,
          calculate_disposable_income c d = .ok disp ∧
          stage2Verdict d (disp * 60) = .ok v ∧
          calculate_allowable_expenses c d hh = .ok exps ∧
          calculate_secured_debt_payments d = .ok sec ∧
          calculate_priority_debt_payments d = .ok pri ∧
          r = stage2Result cmi med disp v hh st exps sec pri)) := by
  unfold determine_means_test_result at h
  cases hst : pyGet d.court_jurisdiction "state" (.str "California") with
  | error e => simp only [hst] at h; exact Except.noConfusion h
  | ok st =>
  simp only [hst] at h
  cases hhh : get_household_size d with
  | error e => simp only [hhh] at h; exact Except.noConfusion h
  | ok hh =>
  simp only [hhh] at h
  cases hcmi : calculate_current_monthly_income d with
  | error e => simp only [hcmi] at h; exact Except.noConfusion h
  | ok cmi =>
  simp only [hcmi] at h
  cases hmed : stateMedianOfVal c st hh with
  | error e => simp only [hmed] at h; exact Except.noConfusion h
  | ok med =>
  simp only [hmed] at h
  refine ⟨st, hh, cmi, med, rfl, rfl, rfl, hmed, ?_⟩
  by_cases hle : cmi ≤ med
  · rw [if_pos hle] at h
    exact Or.inl ⟨hle, (Except.ok.inj h).symm⟩
  · rw [if_neg hle] at h
    cases hdisp : calculate_disposable_income c d with
    | error e => simp only [hdisp] at h; exact Except.noConfusion h
    | ok disp =>
    simp only [hdisp] at h
    cases hv : stage2Verdict d (disp * 60) with
    | error e => simp only [hv] at h; exact Except.noConfusion h
    | ok v =>
    simp only [hv] at h
    cases hexp : calculate_allowable_expenses c d hh with
    | error e => simp only [hexp] at h; exact Except.noConfusion h
    | ok exps =>
    simp only [hexp] at h
    cases hsec : calculate_secured_debt_payments d with
    | error e => simp only [hsec] at h; exact Except.noConfusion h
    | ok sec =>
    simp only [hsec] at h
    cases hpri : calculate_priority_debt_payments d with
    | error e => simp only [hpri] at h; exact Except.noConfusion h
    | ok pri =>
    simp only [hpri] at h
    exact Or.inr ⟨hle, disp, v, exps, sec, pri, rfl, hv, rfl, rfl, rfl,
      (Except.ok.inj h).symm⟩

/-- The empty input record: every key absent, so every `.get` default. -/
def emptyRec : FinRecord := {}

/-- A record whose income (10000) exceeds the California size-1 median (6789),
forcing Stage 2. -/
def highIncomeRec : FinRecord := { monthly_income := .num 10000 }

/-- The allowable-expense dict the default tables produce for household size 1
when no actual expenses are claimed. -/
def defaultExpenses1 : List (String × ℚ) :=
  [("food", 500), ("housekeeping_supplies", 50), ("apparel_and_services", 200),
   ("personal_care", 50), ("miscellaneous", 100), ("housing_and_utilities", 0),
   ("transportation", 0), ("health_insurance", 0), ("medical_expenses", 0),
   ("phone_internet", 0), ("entertainment", 0)]

theorem emptyRec_state :
    pyGet emptyRec.court_jurisdiction "state" (.str "California") =
      .ok (.str "California") := rfl

theorem emptyRec_hh : get_household_size emptyRec = .ok 1 := rfl

theorem emptyRec_cmi : calculate_current_monthly_income emptyRec = .ok 0 := rfl

theorem calif_median_1 :
    stateMedianOfVal defaultCalculator (.str "California") 1 = .ok 6789 := rfl

theorem highIncomeRec_state :
    pyGet highIncomeRec.court_jurisdiction "state" (.str "California") =
      .ok (.str "California") := rfl

theorem highIncomeRec_hh : get_household_size highIncomeRec = .ok 1 := rfl

theorem highIncomeRec_cmi :
    calculate_current_monthly_income highIncomeRec = .ok 10000 := rfl

theorem highIncomeRec_exps :
    calculate_allowable_expenses defaultCalculator highIncomeRec 1 =
      .ok defaultExpenses1 := by
  norm_num [calculate_allowable_expenses, actualExpense, pyGet, pyFloat, rowGet,
    defaultCalculator, defaultExpenses1, highIncomeRec, min_def]

theorem highIncomeRec_sec :
    calculate_secured_debt_payments highIncomeRec = .ok 0 := rfl

theorem highIncomeRec_pri :
    calculate_priority_debt_payments highIncomeRec = .ok 0 := rfl

theorem highIncomeRec_unsec :
    calculate_unsecured_debt highIncomeRec = .ok 0 := rfl

theorem highIncomeRec_disp :
    calculate_disposable_income defaultCalculator highIncomeRec = .ok 9100 := by
  rw [calculate_disposable_income]
  simp only [highIncomeRec_cmi, highIncomeRec_hh, highIncomeRec_exps,
    highIncomeRec_sec, highIncomeRec_pri]
  norm_num [defaultExpenses1, max_def]

theorem highIncomeRec_verdict :
    stage2Verdict highIncomeRec (9100 * 60) = .ok ⟨"FAIL", false, true⟩ := by
  rw [stage2Verdict]
  norm_num

theorem highIncomeRec_result :
    determine_means_test_result defaultCalculator highIncomeRec =
      .ok (stage2Result 10000 6789 9100 ⟨"FAIL", false, true⟩ 1
            (.str "California") defaultExpenses1 0 0) :=
  determine_stage2_eq defaultCalculator highIncomeRec (.str "California") 1
    10000 6789 9100 ⟨"FAIL", false, true⟩ defaultExpenses1 0 0
    highIncomeRec_state highIncomeRec_hh highIncomeRec_cmi calif_median_1
    (by norm_num) highIncomeRec_disp highIncomeRec_verdict highIncomeRec_exps
    highIncomeRec_sec highIncomeRec_pri

theorem emptyRec_result :
    determine_means_test_result defaultCalculator emptyRec =
      .ok (stage1Result 0 6789 1 (.str "California")) :=
  determine_stage1_eq defaultCalculator emptyRec (.str "California") 1 0 6789
    emptyRec_state emptyRec_hh emptyRec_cmi calif_median_1 (by norm_num)

/-- Unfolding lemma for `calculate_disposable_income` in terms of its five
sub-computations. -/
theorem calculate_disposable_income_eq (c : Calculator) (d : FinRecord)
    (cmi : ℚ) (hh : ℕ) (exps : List (String × ℚ)) (sec pri : ℚ)
    (hcmi : calculate_current_monthly_income d = .ok cmi)
    (hhh : get_household_size d = .ok hh)
    (hexp : calculate_allowable_expenses c d hh = .ok exps)
    (hsec : calculate_secured_debt_payments d = .ok sec)
    (hpri : calculate_priority_debt_payments d = .ok pri) :
    calculate_disposable_income c d =
      .ok (max 0 (cmi - (exps.map Prod.snd).sum - sec - pri)) := by
  unfold calculate_disposable_income
  simp only [hcmi, hhh, hexp, hsec, hpri]

/-- A successful Stage-2 classification is one of the two verdict triples the
source assigns. -/
theorem stage2Verdict_shape (d : FinRecord) (fy : ℚ) (v : Verdict)
    (h : stage2Verdict d fy = .ok v) :
    v = ⟨"PASS", true, false⟩ ∨ v = ⟨"FAIL", false, true⟩ := by
  unfold stage2Verdict at h
  split at h
  · exact Or.inl (Except.ok.inj h).symm
  · split at h
    · exact Or.inr (Except.ok.inj h).symm
    · cases hu : calculate_unsecured_debt d with
      | error e => simp only [hu] at h; exact Except.noConfusion h
      | ok u =>
          simp only [hu] at h
          split at h
          · split at h
            · exact Or.inr (Except.ok.inj h).symm
            · exact Or.inl (Except.ok.inj h).symm
          · exact Or.inl (Except.ok.inj h).symm

/-- C3: for every record on which the sub-computations succeed, the disposable
monthly income equals `max 0 (income - total allowable expenses - secured
payments - priority payments)`, is therefore never negative, and the
five-year disposable figure recorded in any successful result is exactly the
disposable monthly figure times 60. -/
theorem C3_disposable_income_invariant (c : Calculator) (d : FinRecord)
    (cmi : ℚ) (hh : ℕ) (exps : List (String × ℚ)) (sec pri : ℚ)
    (hcmi : calculate_current_monthly_income d = .ok cmi)
    (hhh : get_household_size d = .ok hh)
    (hexp : calculate_allowable_expenses c d hh = .ok exps)
    (hsec : calculate_secured_debt_payments d = .ok sec)
    (hpri : calculate_priority_debt_payments d = .ok pri) :
    calculate_disposable_income c d =
      .ok (max 0 (cmi - (exps.map Prod.snd).sum - sec - pri)) ∧
    (∀ v, calculate_disposable_income c d = .ok v → 0 ≤ v) ∧
    (∀ r dm, determine_means_test_result c d = .ok r →
      r.details.disposable_monthly_income = some dm →
      r.details.five_year_disposable_income = some (dm * 60)) := by
  have h1 := calculate_disposable_income_eq c d cmi hh exps sec pri
    hcmi hhh hexp hsec hpri
  refine ⟨h1, ?_, ?_⟩
  · intro v hv
    rw [h1] at hv
    obtain rfl := Except.ok.inj hv
    exact le_max_left 0 _
  · intro r dm hr hdm
    obtain ⟨st, hh2, cmi2, med, -, -, -, -, hcase⟩ := determine_ok_inv c d r hr
    rcases hcase with ⟨-, rfl⟩ |
      ⟨-, disp, v, exps2, sec2, pri2, -, -, -, -, -, rfl⟩
    · simp [stage1Result] at hdm
    · have hddm : disp = dm := by simpa [stage2Result] using hdm
      simp [stage2Result, hddm]

/-- C3 witness at a concrete record. -/
theorem C3_witness :
    calculate_disposable_income defaultCalculator highIncomeRec =
      .ok (max 0 (10000 - (defaultExpenses1.map Prod.snd).sum - 0 - 0)) :=
  (C3_disposable_income_invariant defaultCalculator highIncomeRec 10000 1
    defaultExpenses1 0 0 highIncomeRec_cmi highIncomeRec_hh highIncomeRec_exps
    highIncomeRec_sec highIncomeRec_pri).1

/-- C4: when income is at or below the median the engine returns the terminal
Stage-1 PASS result (chapter 7 eligible, chapter 13 not required, and none of
the Stage-2 figures present in the result); when income exceeds the median,
Stage 2 runs and the final result equals the Stage-2 result. -/
theorem C4_stage1_terminal (c : Calculator) (d : FinRecord) (r : MTResult)
    (st : PyVal) (hh : ℕ) (cmi med : ℚ)
    (hst : pyGet d.court_jurisdiction "state" (.str "California") = .ok st)
    (hhh : get_household_size d = .ok hh)
    (hcmi : calculate_current_monthly_income d = .ok cmi)
    (hmed : stateMedianOfVal c st hh = .ok med)
    (hr : determine_means_test_result c d = .ok r) :
    (cmi ≤ med →
      r = stage1Result cmi med hh st ∧
      r.means_test_result = "PASS" ∧ r.chapter_7_eligible = true ∧
      r.chapter_13_required = false ∧ r.step2_required = false ∧
      r.step2_result = Option.none ∧
      r.details.disposable_monthly_income = Option.none ∧
      r.details.five_year_disposable_income = Option.none ∧
      r.details.allowable_expenses = Option.none ∧
      r.details.secured_payments = Option.none ∧
      r.details.priority_payments = Option.none) ∧
    (¬ cmi ≤ med →
      r.step2_required = true ∧ r.step2_result = some r.means_test_result) := by
  constructor
  · intro hle
    rw [determine_stage1_eq c d st hh cmi med hst hhh hcmi hmed hle] at hr
    obtain rfl := (Except.ok.inj hr).symm
    simp [stage1Result]
  · intro hgt
    obtain ⟨st2, hh2, cmi2, med2, hst2, hhh2, hcmi2, hmed2, hcase⟩ :=
      determine_ok_inv c d r hr
    obtain rfl : st2 = st := Except.ok.inj (hst2.symm.trans hst)
    obtain rfl : hh2 = hh := Except.ok.inj (hhh2.symm.trans hhh)
    obtain rfl : cmi2 = cmi := Except.ok.inj (hcmi2.symm.trans hcmi)
    obtain rfl : med2 = med := Except.ok.inj (hmed2.symm.trans hmed)
    rcases hcase with ⟨hle, -⟩ |
      ⟨-, disp, v, exps, sec, pri, -, -, -, -, -, rfl⟩
    · exact absurd hle hgt
    · simp [stage2Result]

/-- C4 witness: the empty record passes Stage 1 terminally. -/
theorem C4_witness :
    (0 : ℚ) ≤ 6789 ∧
    (stage1Result 0 6789 1 (.str "California")).means_test_result = "PASS" ∧
    (stage1Result 0 6789 1 (.str "California")).details.disposable_monthly_income
      = Option.none := by
  have h := C4_stage1_terminal defaultCalculator emptyRec
    (stage1Result 0 6789 1 (.str "California")) (.str "California") 1 0 6789
    emptyRec_state emptyRec_hh emptyRec_cmi calif_median_1 emptyRec_result
  have h2 := h.1 (by norm_num)
  exact ⟨by norm_num, h2.2.1, h2.2.2.2.2.2.2.1⟩

/-- C9: in every result the engine returns, `chapter_7_eligible` holds exactly
when the final result is PASS, and `chapter_13_required` is its exact
negation, on every path. -/
theorem C9_eligibility_flags (c : Calculator) (d : FinRecord) (r : MTResult)
    (hr : determine_means_test_result c d = .ok r) :
    (r.chapter_7_eligible = true ↔ r.means_test_result = "PASS") ∧
    r.chapter_13_required = !r.chapter_7_eligible := by
  obtain ⟨st, hh, cmi, med, -, -, -, -, hcase⟩ := determine_ok_inv c d r hr
  rcases hcase with ⟨-, rfl⟩ |
    ⟨-, disp, v, exps, sec, pri, -, hv, -, -, -, rfl⟩
  · simp [stage1Result]
  · rcases stage2Verdict_shape d (disp * 60) v hv with rfl | rfl
    · simp [stage2Result]
    · simp [stage2Result]

/-- C9 witness at a concrete Stage-2 FAIL result. -/
theorem C9_witness :
    ((stage2Result 10000 6789 9100 ⟨"FAIL", false, true⟩ 1 (.str "California")
        defaultExpenses1 0 0).chapter_7_eligible = true ↔
      (stage2Result 10000 6789 9100 ⟨"FAIL", false, true⟩ 1 (.str "California")
        defaultExpenses1 0 0).means_test_result = "PASS") ∧
    (stage2Result 10000 6789 9100 ⟨"FAIL", false, true⟩ 1 (.str "California")
        defaultExpenses1 0 0).chapter_13_required =
      !(stage2Result 10000 6789 9100 ⟨"FAIL", false, true⟩ 1 (.str "California")
        defaultExpenses1 0 0).chapter_7_eligible :=
  C9_eligibility_flags defaultCalculator highIncomeRec _ highIncomeRec_result

/-- C1: for every record reaching Stage 2, the verdict is determined by the
five-year disposable figure: strictly below 7700 it is PASS, strictly above
12850 it is FAIL, and in the inclusive gray zone the unsecured-debt total
decides — PASS when it is 0 (no division), otherwise FAIL exactly when
`fiveYear / unsecuredTotal * 100 >= 25`. -/
theorem C1_stage2_thresholds (c : Calculator) (d : FinRecord) (r : MTResult)
    (U f : ℚ)
    (hr : determine_means_test_result c d = .ok r)
    (hreq : r.step2_required = true)
    (hU : calculate_unsecured_debt d = .ok U)
    (hf : r.details.five_year_disposable_income = some f) :
    (f < 7700 → r.means_test_result = "PASS") ∧
    (12850 < f → r.means_test_result = "FAIL") ∧
    (7700 ≤ f → f ≤ 12850 →
      (U = 0 → r.means_test_result = "PASS") ∧
      (U ≠ 0 → (r.means_test_result = "FAIL" ↔ f / U * 100 ≥ 25))) := by
  obtain ⟨st, hh, cmi, med, -, -, -, -, hcase⟩ := determine_ok_inv c d r hr
  rcases hcase with ⟨-, rfl⟩ |
    ⟨-, disp, v, exps, sec, pri, -, hv, -, -, -, rfl⟩
  · simp [stage1Result] at hreq
  · have hffy : disp * 60 = f := by simpa [stage2Result] using hf
    subst hffy
    simp only [stage2Result]
    unfold stage2Verdict at hv
    split at hv
    · rename_i h77
      obtain rfl := Except.ok.inj hv
      exact ⟨fun _ => rfl, fun h => absurd h (by linarith),
        fun h77b _ => absurd h77b (not_le.mpr h77)⟩
    · split at hv
      · rename_i h77 h128
        obtain rfl := Except.ok.inj hv
        exact ⟨fun h => absurd h h77, fun _ => rfl,
          fun _ h128b => absurd h128 (not_lt.mpr h128b)⟩
      · rename_i h77 h128
        cases hu : calculate_unsecured_debt d with
        | error e => simp only [hu] at hv; exact Except.noConfusion hv
        | ok u =>
        have huU : u = U := Except.ok.inj (hu.symm.trans hU)
        simp only [hu, huU] at hv
        refine ⟨fun h => absurd h h77, fun h => absurd h h128,
          fun h77b h128b => ⟨?_, ?_⟩⟩
        · intro hU0
          subst hU0
          rw [if_neg (by norm_num : ¬ (0:ℚ) > 0)] at hv
          obtain rfl := Except.ok.inj hv
          rfl
        · intro hUne
          by_cases hU0 : U > 0
          · rw [if_pos hU0] at hv
            split at hv
            · rename_i hpct
              obtain rfl := Except.ok.inj hv
              exact ⟨fun _ => hpct, fun _ => rfl⟩
            · rename_i hpct
              obtain rfl := Except.ok.inj hv
              exact ⟨fun h => absurd h (by decide), fun hge => absurd hge hpct⟩
          · rw [if_neg hU0] at hv
            obtain rfl := Except.ok.inj hv
            have hUneg : U < 0 := lt_of_le_of_ne (not_lt.mp hU0) hUne
            refine ⟨fun h => absurd h (by decide), fun hge => ?_⟩
            have hfpos : (0:ℚ) < disp * 60 := by linarith
            have hdivneg : disp * 60 / U < 0 := div_neg_of_pos_of_neg hfpos hUneg
            have hmulneg : disp * 60 / U * 100 < 0 :=
              mul_neg_of_neg_of_pos hdivneg (by norm_num)
            exact absurd hge (by linarith)

/-- C1 witness: a record whose five-year figure 546000 exceeds 12850 fails. -/
theorem C1_witness :
    (12850 : ℚ) < 9100 * 60 ∧
    (stage2Result 10000 6789 9100 ⟨"FAIL", false, true⟩ 1 (.str "California")
      defaultExpenses1 0 0).means_test_result = "FAIL" := by
  have h := C1_stage2_thresholds defaultCalculator highIncomeRec
    (stage2Result 10000 6789 9100 ⟨"FAIL", false, true⟩ 1 (.str "California")
      defaultExpenses1 0 0) 0 (9100 * 60)
    highIncomeRec_result rfl highIncomeRec_unsec rfl
  exact ⟨by norm_num, h.2.1 (by norm_num)⟩

/-- C10: a record whose court jurisdiction has no `state` key behaves exactly
like the same record with state "California". -/
theorem C10_missing_state_defaults_to_california (c : Calculator)
    (d : FinRecord) (l : List (String × PyVal))
    (hl : l.lookup "state" = Option.none) :
    determine_means_test_result c { d with court_jurisdiction := .dict l } =
      determine_means_test_result c
        { d with court_jurisdiction := .dict [("state", .str "California")] } := by
  unfold determine_means_test_result
  have h1 : pyGet (FinRecord.court_jurisdiction
      { d with court_jurisdiction := PyVal.dict l }) "state" (.str "California") =
      .ok (.str "California") := by
    simp [pyGet, hl]
  rw [h1]
  rfl

/-- An explicit `{"state": "California"}` jurisdiction value. -/
def calJurisdiction : PyVal := .dict [("state", .str "California")]

/-- C10 witness: the record with an empty jurisdiction dict versus the explicit
"California" record. -/
theorem C10_witness :
    determine_means_test_result defaultCalculator
        { emptyRec with court_jurisdiction := PyVal.dict [] } =
      determine_means_test_result defaultCalculator
        { emptyRec with court_jurisdiction := calJurisdiction } :=
  C10_missing_state_defaults_to_california defaultCalculator emptyRec [] rfl

/-- A record whose `additional_income` list holds a bare number instead of an
`{amount: ...}` dict. -/
def badEntryRec : FinRecord := { additional_income := .list [.num 5] }

/-- C2: refuted by the code — a malformed additional-income entry that is not
a dict makes `income_source.get` raise `AttributeError`, which neither
`except (ValueError, TypeError)` handler catches, so the whole calculation
raises instead of returning a verdict. -/
theorem C2_attribute_error_escapes :
    determine_means_test_result defaultCalculator badEntryRec =
      .error .attributeError ∧
    calculate_means_test "2025-01-01T00:00:00" badEntryRec =
      .error .attributeError := ⟨rfl, rfl⟩

/-- C6 counterexample: two invocations identical except for the clock yield
results that differ (in the `calculation_date` field), refuting byte-identical
equality of every attached field. -/
theorem C6_counterexample :
    calculate_means_test "2025-01-01T00:00:00" emptyRec ≠
      calculate_means_test "2025-01-02T00:00:00" emptyRec := by
  intro h
  unfold calculate_means_test at h
  simp only [emptyRec_result] at h
  exact absurd (congrArg StampedResult.calculation_date (Except.ok.inj h))
    (by decide)

/-- A stamped result without its audit timestamp. -/
def stripStamp (s : StampedResult) : MTResult × String :=
  (s.result, s.calculation_version)

/-- C6 amended: two invocations on the same record agree on every field except
`calculation_date`, which carries each invocation's own timestamp. -/
theorem C6_amended_deterministic_up_to_timestamp (t1 t2 : String)
    (d : FinRecord) :
    (calculate_means_test t1 d).map stripStamp =
      (calculate_means_test t2 d).map stripStamp := by
  unfold calculate_means_test
  cases hdet : determine_means_test_result defaultCalculator d with
  | error e => simp only [hdet]
  | ok r => simp only [hdet]; rfl

/-- `float` never raises `AttributeError`. -/
theorem pyFloat_ne_attributeError (v : PyVal) :
    pyFloat v ≠ .error .attributeError := by
  cases v with
  | str s => cases h : parsePyFloat s <;> simp [pyFloat, h]
  | num q => simp [pyFloat]
  | pynone => simp [pyFloat]
  | list l => simp [pyFloat]
  | dict l => simp [pyFloat]

/-- The contribution of a dict-shaped additional-income entry: its parsed
amount when `float` succeeds on it, else 0 (the entry is skipped). -/
def entryAmount (e : List (String × PyVal)) : ℚ :=
  match pyFloat ((e.lookup "amount").getD (.num 0)) with
  | .ok q => q
  | .error _ => 0

/-- The additional-income loop over dict-shaped entries adds exactly the
parseable amounts (negative ones included) to the accumulator. -/
theorem addIncomeLoop_dicts (ds : List (List (String × PyVal))) (acc : ℚ) :
    addIncomeLoop (ds.map PyVal.dict) acc =
      .ok (acc + (ds.map entryAmount).sum) := by
  induction ds generalizing acc with
  | nil => simp [addIncomeLoop]
  | cons e rest ih =>
      have hne := pyFloat_ne_attributeError ((e.lookup "amount").getD (.num 0))
      have hatt : entryAttempt (PyVal.dict e) =
          pyFloat ((e.lookup "amount").getD (PyVal.num 0)) := rfl
      simp only [List.map_cons, List.sum_cons, addIncomeLoop, hatt]
      cases hpf : pyFloat ((e.lookup "amount").getD (PyVal.num 0)) with
      | ok q =>
          show addIncomeLoop (List.map PyVal.dict rest) (acc + q) = _
          rw [ih, show entryAmount e = q by simp [entryAmount, hpf], add_assoc]
      | error err =>
          cases err with
          | valueError =>
              show addIncomeLoop (List.map PyVal.dict rest) acc = _
              rw [ih, show entryAmount e = 0 by simp [entryAmount, hpf], zero_add]
          | typeError =>
              show addIncomeLoop (List.map PyVal.dict rest) acc = _
              rw [ih, show entryAmount e = 0 by simp [entryAmount, hpf], zero_add]
          | attributeError => exact absurd hpf hne

/-- A record with a single additional-income entry of -50. -/
def negativeIncomeRec : FinRecord :=
  { additional_income := .list [.dict [("amount", .num (-50))]] }

/-- C5 counterexample: an additional-income amount of -50 parses as a float
and is added, so the returned figure is -50 — negative, refuting both the
claimed skipping of entries that do not parse as NON-NEGATIVE numbers and the
claimed non-negativity of the result. -/
theorem C5_counterexample :
    calculate_current_monthly_income negativeIncomeRec = .ok (-50) ∧
    ¬ (0 : ℚ) ≤ -50 := by
  constructor
  · norm_num [calculate_current_monthly_income, cmiBody, pyFloat, pyIter,
      addIncomeLoop, entryAttempt, pyGet, negativeIncomeRec]
  · norm_num

/-- C5 amended: for every record whose additional-income entries are dicts,
the current monthly income equals the base figure plus the sum of every
amount `float` can parse (negative amounts included, no rounding and no
clamping); entries whose amount fails to parse are skipped without aborting;
and when the base figure itself is unparseable the outer handler returns 0,
discarding the additional income entirely. -/
theorem C5_amended_cmi_formula (d : FinRecord)
    (ds : List (List (String × PyVal)))
    (hai : d.additional_income = .list (ds.map PyVal.dict)) :
    calculate_current_monthly_income d =
      .ok (match pyFloat d.monthly_income with
           | .ok b => b + (ds.map entryAmount).sum
           | .error _ => 0) := by
  unfold calculate_current_monthly_income cmiBody
  rw [hai]
  cases hb : pyFloat d.monthly_income with
  | ok b => simp only [pyIter, addIncomeLoop_dicts]
  | error e =>
      have hne := pyFloat_ne_attributeError d.monthly_income
      rw [hb] at hne
      cases e with
      | valueError => rfl
      | typeError => rfl
      | attributeError => exact absurd rfl hne

/-- The dict-shaped additional-income entries of the C5 witness record. -/
def mixedEntries : List (List (String × PyVal)) :=
  [[("amount", .str "abc")], [("amount", .num 25)]]

/-- A record with base income 100, one unparseable and one parseable
additional-income entry. -/
def mixedIncomeRec : FinRecord :=
  { monthly_income := .num 100,
    additional_income := .list (mixedEntries.map PyVal.dict) }

/-- C5 witness at a concrete record. -/
theorem C5_witness :
    calculate_current_monthly_income mixedIncomeRec =
      .ok (match pyFloat mixedIncomeRec.monthly_income with
           | .ok b => b + (mixedEntries.map entryAmount).sum
           | .error _ => 0) :=
  C5_amended_cmi_formula mixedIncomeRec mixedEntries rfl

/-- An all-5000 median row. -/
def atlantisRow : List ℚ := [5000, 5000, 5000, 5000, 5000, 5000, 5000, 5000]

/-- The default tables extended with "Atlantis" as if it were an authoritative
state whose row is the constant 5000. -/
def atlantisCalculator : Calculator :=
  { defaultCalculator with
      median_income_data := fun s =>
        if s = "Atlantis" then some atlantisRow
        else defaultMedianIncomeData s }

/-- A Stage-2 record whose jurisdiction names a state absent from the table. -/
def atlantisRec : FinRecord :=
  { monthly_income := .num 10000,
    court_jurisdiction := .dict [("state", .str "Atlantis")] }

/-- C7 counterexample: the unknown-state fallback is not marked in the trace.
The lookup returns the bare figure 5000, and the engine's entire result for
the unknown state "Atlantis" is byte-identical to the result produced when the
table genuinely contains an Atlantis row of 5000s — the fallback is presented
exactly like authoritative state-specific data, with nothing distinguishing
it. -/
theorem C7_counterexample :
    get_state_median_income defaultCalculator "Atlantis" 1 = 5000 ∧
    determine_means_test_result defaultCalculator atlantisRec =
      determine_means_test_result atlantisCalculator atlantisRec :=
  ⟨rfl, rfl⟩

/-- C7 amended: household sizes above 8 use the size-8 row (no extrapolation),
and a state absent from the table yields the fixed default median 5000 — but
nothing in the result marks the fallback. -/
theorem C7_amended_median_lookup (c : Calculator) :
    (∀ s hh, 8 ≤ hh →
      get_state_median_income c s hh = get_state_median_income c s 8) ∧
    (∀ s hh, c.median_income_data s = Option.none →
      get_state_median_income c s hh = 5000) := by
  constructor
  · intro s hh h8
    unfold get_state_median_income
    cases c.median_income_data s with
    | none => rfl
    | some row => simp [rowGet, min_eq_right h8]
  · intro s hh h
    unfold get_state_median_income
    rw [h]

/-- C7 witness: size 9 in Texas uses the size-8 row; unknown "Atlantis" gets
the fixed 5000. -/
theorem C7_witness :
    (8 : ℕ) ≤ 9 ∧
    get_state_median_income defaultCalculator "Texas" 9 =
      get_state_median_income defaultCalculator "Texas" 8 ∧
    get_state_median_income defaultCalculator "Atlantis" 3 = 5000 := by
  have h := C7_amended_median_lookup defaultCalculator
  exact ⟨by norm_num, h.1 "Texas" 9 (by norm_num), h.2 "Atlantis" 3 rfl⟩

/-- The record with the base monthly income field replaced by the number x. -/
def setIncome (d : FinRecord) (x : ℚ) : FinRecord :=
  { d with monthly_income := .num x }

/-- The additional-income loop is an accumulator shift: starting it at `a + b`
yields `a` plus whatever it yields starting at `b`, with identical errors. -/
theorem addIncomeLoop_shift (entries : List PyVal) (a b : ℚ) :
    addIncomeLoop entries (a + b) = (addIncomeLoop entries b).map (a + ·) := by
  induction entries generalizing b with
  | nil => rfl
  | cons e rest ih =>
      simp only [addIncomeLoop]
      cases ha : entryAttempt e with
      | ok q =>
          show addIncomeLoop rest (a + b + q) =
            (addIncomeLoop rest (b + q)).map (a + ·)
          rw [add_assoc]
          exact ih (b + q)
      | error err =>
          cases err with
          | valueError =>
              show addIncomeLoop rest (a + b) = (addIncomeLoop rest b).map (a + ·)
              exact ih b
          | typeError =>
              show addIncomeLoop rest (a + b) = (addIncomeLoop rest b).map (a + ·)
              exact ih b
          | attributeError => rfl

/-- The loop started at `x` versus started at 0. -/
theorem addIncomeLoop_from_zero (entries : List PyVal) (x : ℚ) :
    addIncomeLoop entries x = (addIncomeLoop entries 0).map (x + ·) := by
  have h := addIncomeLoop_shift entries x 0
  rwa [add_zero] at h

/-- Iteration failures are always `TypeError`. -/
theorem pyIter_error_typeError (v : PyVal) (e : PyErr)
    (h : pyIter v = .error e) : e = .typeError := by
  cases v with
  | num q => exact (Except.error.inj h).symm
  | pynone => exact (Except.error.inj h).symm
  | str s => exact Except.noConfusion h
  | list l => exact Except.noConfusion h
  | dict l => exact Except.noConfusion h

/-- When the body succeeds, the outer handler passes the value through. -/
theorem cmi_of_body_ok (d : FinRecord) (v : ℚ) (h : cmiBody d = .ok v) :
    calculate_current_monthly_income d = .ok v := by
  unfold calculate_current_monthly_income
  rw [h]

/-- When the body raises `ValueError` or `TypeError`, the outer handler
returns 0. -/
theorem cmi_of_body_caught (d : FinRecord) (e : PyErr)
    (h : cmiBody d = .error e) (hne : e ≠ .attributeError) :
    calculate_current_monthly_income d = .ok 0 := by
  unfold calculate_current_monthly_income
  rw [h]
  cases e with
  | valueError => rfl
  | typeError => rfl
  | attributeError => exact absurd rfl hne

/-- Any other exception from the body propagates. -/
theorem cmi_of_body_attr (d : FinRecord)
    (h : cmiBody d = .error .attributeError) :
    calculate_current_monthly_income d = .error .attributeError := by
  unfold calculate_current_monthly_income
  rw [h]

/-- As a function of the base income `x` (all other fields fixed), the current
monthly income is constantly 0 (non-iterable additional income, or a loop
failure the outer handler catches), or `x` plus a fixed additional-income sum,
or a fixed propagated error. -/
theorem cmi_setIncome_cases (d : FinRecord) :
    (∀ x, calculate_current_monthly_income (setIncome d x) = .ok 0) ∨
    (∃ s, ∀ x,
      calculate_current_monthly_income (setIncome d x) = .ok (x + s)) ∨
    (∃ e, ∀ x,
      calculate_current_monthly_income (setIncome d x) = .error e) := by
  have hbody : ∀ x : ℚ, cmiBody (setIncome d x) =
      match pyIter d.additional_income with
      | .error err => .error err
      | .ok entries => addIncomeLoop entries x := fun x => rfl
  cases hit : pyIter d.additional_income with
  | error e =>
      obtain rfl := pyIter_error_typeError d.additional_income e hit
      left
      intro x
      have hb : cmiBody (setIncome d x) = .error .typeError := by
        rw [hbody x, hit]
      exact cmi_of_body_caught _ _ hb (by decide)
  | ok entries =>
      have hbx : ∀ x : ℚ, cmiBody (setIncome d x) = addIncomeLoop entries x :=
        fun x => by rw [hbody x, hit]
      cases hl : addIncomeLoop entries 0 with
      | ok s =>
          right; left
          refine ⟨s, fun x => ?_⟩
          have hb : cmiBody (setIncome d x) = .ok (x + s) := by
            rw [hbx x, addIncomeLoop_from_zero, hl]
            rfl
          exact cmi_of_body_ok _ _ hb
      | error err =>
          have hx : ∀ x : ℚ, cmiBody (setIncome d x) = .error err := fun x => by
            rw [hbx x, addIncomeLoop_from_zero, hl]
            rfl
          cases err with
          | valueError =>
              exact Or.inl fun x => cmi_of_body_caught _ _ (hx x) (by decide)
          | typeError =>
              exact Or.inl fun x => cmi_of_body_caught _ _ (hx x) (by decide)
          | attributeError =>
              exact Or.inr (Or.inr ⟨.attributeError,
                fun x => cmi_of_body_attr _ (hx x)⟩)

theorem get_household_size_setIncome (d : FinRecord) (x : ℚ) :
    get_household_size (setIncome d x) = get_household_size d := rfl

theorem allowable_expenses_setIncome (c : Calculator) (d : FinRecord) (x : ℚ)
    (hh : ℕ) :
    calculate_allowable_expenses c (setIncome d x) hh =
      calculate_allowable_expenses c d hh := rfl

theorem secured_setIncome (d : FinRecord) (x : ℚ) :
    calculate_secured_debt_payments (setIncome d x) =
      calculate_secured_debt_payments d := rfl

theorem priority_setIncome (d : FinRecord) (x : ℚ) :
    calculate_priority_debt_payments (setIncome d x) =
      calculate_priority_debt_payments d := rfl

theorem state_setIncome (d : FinRecord) (x : ℚ) :
    pyGet (setIncome d x).court_jurisdiction "state" (.str "California") =
      pyGet d.court_jurisdiction "state" (.str "California") := rfl

theorem stage2Verdict_setIncome (d : FinRecord) (x : ℚ) (fy : ℚ) :
    stage2Verdict (setIncome d x) fy = stage2Verdict d fy := rfl

/-- Raising the five-year figure can never turn a FAIL classification into a
PASS: the FAIL region of the Stage-2 thresholds is upward closed. -/
theorem stage2Verdict_fail_mono (d : FinRecord) (f1 f2 : ℚ) (hle : f1 ≤ f2)
    (v1 : Verdict) (h1 : stage2Verdict d f1 = .ok v1)
    (hfail : v1.result = "FAIL") :
    stage2Verdict d f2 = .ok ⟨"FAIL", false, true⟩ := by
  unfold stage2Verdict at h1 ⊢
  split at h1
  · obtain rfl := Except.ok.inj h1
    exact absurd hfail (by decide)
  · split at h1
    · rename_i h77 h128
      rw [if_neg (by linarith : ¬ f2 < 7700), if_pos (by linarith : f2 > 12850)]
    · rename_i h77 h128
      rw [if_neg (by linarith : ¬ f2 < 7700)]
      by_cases h2 : f2 > 12850
      · rw [if_pos h2]
      · rw [if_neg h2]
        cases hu : calculate_unsecured_debt d with
        | error e => simp only [hu] at h1; exact Except.noConfusion h1
        | ok u =>
        simp only [hu] at h1
        simp only [hu]
        split at h1
        · rename_i hu0
          rw [if_pos hu0]
          split at h1
          · rename_i hpct
            rw [if_pos (show f2 / u * 100 ≥ 25 by
              have hdd : f1 / u ≤ f2 / u := by gcongr
              nlinarith)]
          · obtain rfl := Except.ok.inj h1
            exact absurd hfail (by decide)
        · obtain rfl := Except.ok.inj h1
          exact absurd hfail (by decide)

/-- C8: holding every field other than the base monthly income fixed, the
final verdict is monotone in income — if the record with income x FAILs the
means test, the same record with any higher income y also FAILs. -/
theorem C8_final_verdict_monotone (c : Calculator) (d : FinRecord) (x y : ℚ)
    (hxy : x < y)
    (hfailx : finalVerdict c (setIncome d x) = .ok "FAIL") :
    finalVerdict c (setIncome d y) = .ok "FAIL" := by
  unfold finalVerdict at hfailx
  cases hdx : determine_means_test_result c (setIncome d x) with
  | error e => simp only [hdx] at hfailx; exact Except.noConfusion hfailx
  | ok r =>
  simp only [hdx, Except.map] at hfailx
  have hres : r.means_test_result = "FAIL" := Except.ok.inj hfailx
  obtain ⟨st, hh, cmix, med, hst, hhh, hcmix, hmed, hcase⟩ :=
    determine_ok_inv c (setIncome d x) r hdx
  rw [state_setIncome] at hst
  rw [get_household_size_setIncome] at hhh
  rcases hcase with ⟨hle, rfl⟩ |
    ⟨hgt, disp, v, exps, sec, pri, hdisp, hv, hexp, hsec, hpri, rfl⟩
  · rw [show (stage1Result cmix med hh st).means_test_result = "PASS" from rfl]
      at hres
    exact absurd hres (by decide)
  · have hresv : v.result = "FAIL" := by simpa [stage2Result] using hres
    rw [stage2Verdict_setIncome] at hv
    rw [allowable_expenses_setIncome] at hexp
    rw [secured_setIncome] at hsec
    rw [priority_setIncome] at hpri
    rcases cmi_setIncome_cases d with hzero | ⟨s, hshift⟩ | ⟨e, herr⟩
    · -- the income variable is swallowed: both runs see income 0
      obtain rfl : cmix = 0 := Except.ok.inj (hcmix.symm.trans (hzero x))
      have hdispvalx : calculate_disposable_income c (setIncome d x) =
          .ok (max 0 (0 - (exps.map Prod.snd).sum - sec - pri)) :=
        calculate_disposable_income_eq c (setIncome d x) 0 hh exps sec pri
          (hzero x) (by rw [get_household_size_setIncome]; exact hhh)
          (by rw [allowable_expenses_setIncome]; exact hexp)
          (by rw [secured_setIncome]; exact hsec)
          (by rw [priority_setIncome]; exact hpri)
      obtain rfl : max 0 (0 - (exps.map Prod.snd).sum - sec - pri) = disp :=
        Except.ok.inj (hdispvalx.symm.trans hdisp)
      have hdispy : calculate_disposable_income c (setIncome d y) =
          .ok (max 0 (0 - (exps.map Prod.snd).sum - sec - pri)) :=
        calculate_disposable_income_eq c (setIncome d y) 0 hh exps sec pri
          (hzero y) (by rw [get_household_size_setIncome]; exact hhh)
          (by rw [allowable_expenses_setIncome]; exact hexp)
          (by rw [secured_setIncome]; exact hsec)
          (by rw [priority_setIncome]; exact hpri)
      have hdet_y := determine_stage2_eq c (setIncome d y) st hh 0 med
          (max 0 (0 - (exps.map Prod.snd).sum - sec - pri)) v exps sec pri
          (by rw [state_setIncome]; exact hst)
          (by rw [get_household_size_setIncome]; exact hhh)
          (hzero y) hmed hgt hdispy
          (by rw [stage2Verdict_setIncome]; exact hv)
          (by rw [allowable_expenses_setIncome]; exact hexp)
          (by rw [secured_setIncome]; exact hsec)
          (by rw [priority_setIncome]; exact hpri)
      unfold finalVerdict
      rw [hdet_y]
      simp [stage2Result, Except.map, hresv]
    · -- the income variable shifts the sum: monotone case
      obtain rfl : cmix = x + s := Except.ok.inj (hcmix.symm.trans (hshift x))
      have hgty : ¬ (y + s) ≤ med := fun hy => hgt (by linarith)
      have hdispvalx : calculate_disposable_income c (setIncome d x) =
          .ok (max 0 (x + s - (exps.map Prod.snd).sum - sec - pri)) :=
        calculate_disposable_income_eq c (setIncome d x) (x + s) hh exps sec pri
          (hshift x) (by rw [get_household_size_setIncome]; exact hhh)
          (by rw [allowable_expenses_setIncome]; exact hexp)
          (by rw [secured_setIncome]; exact hsec)
          (by rw [priority_setIncome]; exact hpri)
      obtain rfl : max 0 (x + s - (exps.map Prod.snd).sum - sec - pri) = disp :=
        Except.ok.inj (hdispvalx.symm.trans hdisp)
      have hdispy : calculate_disposable_income c (setIncome d y) =
          .ok (max 0 (y + s - (exps.map Prod.snd).sum - sec - pri)) :=
        calculate_disposable_income_eq c (setIncome d y) (y + s) hh exps sec pri
          (hshift y) (by rw [get_household_size_setIncome]; exact hhh)
          (by rw [allowable_expenses_setIncome]; exact hexp)
          (by rw [secured_setIncome]; exact hsec)
          (by rw [priority_setIncome]; exact hpri)
      have hmono : max 0 (x + s - (exps.map Prod.snd).sum - sec - pri) * 60 ≤
          max 0 (y + s - (exps.map Prod.snd).sum - sec - pri) * 60 := by
        have hmax : max 0 (x + s - (exps.map Prod.snd).sum - sec - pri) ≤
            max 0 (y + s - (exps.map Prod.snd).sum - sec - pri) :=
          max_le_max le_rfl (by linarith)
        nlinarith
      have hvy := stage2Verdict_fail_mono d _ _ hmono v hv hresv
      have hdet_y := determine_stage2_eq c (setIncome d y) st hh (y + s) med
          (max 0 (y + s - (exps.map Prod.snd).sum - sec - pri))
          ⟨"FAIL", false, true⟩ exps sec pri
          (by rw [state_setIncome]; exact hst)
          (by rw [get_household_size_setIncome]; exact hhh)
          (hshift y) hmed hgty hdispy
          (by rw [stage2Verdict_setIncome]; exact hvy)
          (by rw [allowable_expenses_setIncome]; exact hexp)
          (by rw [secured_setIncome]; exact hsec)
          (by rw [priority_setIncome]; exact hpri)
      unfold finalVerdict
      rw [hdet_y]
      simp [stage2Result, Except.map]
    · rw [herr x] at hcmix
      exact Except.noConfusion hcmix

/-- C8 witness: income 10000 fails, so income 20000 also fails. -/
theorem C8_witness :
    (10000 : ℚ) < 20000 ∧
    finalVerdict defaultCalculator (setIncome emptyRec 20000) = .ok "FAIL" := by
  refine ⟨by norm_num, C8_final_verdict_monotone defaultCalculator emptyRec
    10000 20000 (by norm_num) ?_⟩
  unfold finalVerdict
  rw [show setIncome emptyRec 10000 = highIncomeRec from rfl,
    highIncomeRec_result]
  rfl
